import Mathlib

/-!
# Verification of the me-gpt provider core

Shallow embedding of the `me-gpt` command-line LLM client: the normalized
completion data model (`agent/providers/base.py`), the provider adapters
(`agent/providers/openai.py`, `agent/providers/http_adapter.py`, and the
Anthropic adapter, whose module is referenced by the CLI and tests), the
dispatcher (`agent/cli.py`), the session log (`agent/session.py`) and the
configuration object (`agent/config.py`).

Modelling conventions:
* JSON values are the inductive `Json` below; JSON numbers are modelled as
  integers (every numeric field the program touches is a token count or an
  integer setting).
* Python's dynamic failures (`KeyError`, `IndexError`, attribute errors on a
  non-dict, the explicit `ValueError`s the program raises) are modelled as an
  `Except AgentError` result.
* An HTTP exchange is modelled by passing the parsed JSON body of a
  successful response as an explicit argument to `complete`; transport
  failures and non-2xx statuses abort before the response-mapping code that
  is being verified here runs.
* The process environment is an explicit function `Env := String → Option
  String` standing for `os.getenv`.
* Python truthiness on `Optional[str]` / `Optional[int]` values (`x or y`)
  is modelled by `pyOrStr` / `pyOrInt` below: `None`, the empty string and
  `0` are falsy.
-/

/-- A JSON value, as produced by `response.json()`.  Numbers are modelled as
integers (see the header comment). -/
inductive Json where
  | null : Json
  | bool : Bool → Json
  | num : Int → Json
  | str : String → Json
  | arr : List Json → Json
  | obj : List (String × Json) → Json
deriving Repr

/-- First binding of a key in a JSON object's field list (Python dict keys are
unique, so first-match lookup is dict lookup). -/
def lookupField : List (String × Json) → String → Option Json
  | [], _ => none
  | (k, v) :: rest, key => if k = key then some v else lookupField rest key

/-- Errors the embedded program can signal.  `missingCredential` is the
spec's `MissingCredential` (the code's `ValueError("API key not found…")`),
`unknownProvider` the spec's `UnknownProvider`; the rest model Python's
dynamic failures while mapping a response body. -/
inductive AgentError where
  | missingCredential (api_key_env : Option String) : AgentError
  | unknownProvider (name : String) (available : List String) : AgentError
  | keyError (key : String) : AgentError
  | indexError : AgentError
  | typeError : AgentError
deriving Repr, DecidableEq

namespace Json

/-- `data[key]` on a JSON value: a `KeyError` if the key is absent, a type
error if the value is not an object. -/
def index : Json → String → Except AgentError Json
  | .obj kvs, key =>
    match lookupField kvs key with
    | some v => .ok v
    | none => .error (.keyError key)
  | _, _ => .error .typeError

/-- `data.get(key, default)` on a JSON value: the default if the key is
absent, an error if the value is not an object (Python: `AttributeError`). -/
def getD : Json → String → Json → Except AgentError Json
  | .obj kvs, key, d => .ok ((lookupField kvs key).getD d)
  | _, _, _ => .error .typeError

/-- `xs[0]` on a JSON value: the first element of an array. -/
def first : Json → Except AgentError Json
  | .arr (x :: _) => .ok x
  | .arr [] => .error .indexError
  | _ => .error .typeError

/-- Read a JSON value as a string (the adapters store these fields into the
`str`-typed slots of `CompletionResult`). -/
def asStr : Json → Except AgentError String
  | .str s => .ok s
  | _ => .error .typeError

/-- Read a JSON value as an integer (token counts). -/
def asInt : Json → Except AgentError Int
  | .num n => .ok n
  | _ => .error .typeError

/-- Python truthiness of a JSON value (used for `if usage_data:`). -/
def isTruthy : Json → Bool
  | .null => false
  | .bool b => b
  | .num n => n != 0
  | .str s => s != ""
  | .arr l => !l.isEmpty
  | .obj l => !l.isEmpty

end Json

/-- Python `x or d` where `x : Optional[str]`: `None` and `""` are falsy. -/
def pyOrStr : Option String → String → String
  | some s, d => if s = "" then d else s
  | none, d => d

/-- Python `x or d` where `x : Optional[int]`: `None` and `0` are falsy. -/
def pyOrInt : Option Int → Int → Int
  | some n, d => if n = 0 then d else n
  | none, d => d

/-- Python truthiness of an `Optional[str]`, as an `Option` that is `none`
exactly when the value is falsy (`None` or `""`). -/
def pyTruthyStr : Option String → Option String
  | some s => if s = "" then none else some s
  | none => none

/-- The process environment, standing for `os.getenv`. -/
def Env : Type := String → Option String

/-- `ProviderConfig` (`agent/config.py`): per-provider connection settings.
Field defaults are the pydantic field defaults. -/
structure ProviderConfig where
  base_url : String
  api_key_env : Option String := none
  model : Option String := none
  max_tokens : Option Int := none
  timeout : Int := 60
deriving Repr, DecidableEq

/-- `ProviderConfig.get_api_key`: consult `os.getenv` when `api_key_env` is
truthy, else `None`. -/
def ProviderConfig.get_api_key (cfg : ProviderConfig) (env : Env) : Option String :=
  match pyTruthyStr cfg.api_key_env with
  | some k => env k
  | none => none

/-- `TokenUsage` (`agent/providers/base.py`). -/
structure TokenUsage where
  prompt_tokens : Int
  completion_tokens : Int
  total_tokens : Int
deriving Repr, DecidableEq

/-- `CompletionResult` (`agent/providers/base.py`): the single normalized
shape all adapters produce. -/
structure CompletionResult where
  id : String
  text : String
  model : String
  usage : Option TokenUsage := none
deriving Repr, DecidableEq

/-- `OpenAIProvider` (`agent/providers/openai.py`): the constructed adapter
holds the config and the resolved key. -/
structure OpenAIProvider where
  config : ProviderConfig
  api_key : String
deriving Repr, DecidableEq

/-- `OpenAIProvider.__init__`: resolve the credential and fail fast
(`if not self.api_key: raise ValueError(...)`) when it is falsy. -/
def OpenAIProvider.init (env : Env) (config : ProviderConfig) :
    Except AgentError OpenAIProvider :=
  match pyTruthyStr (config.get_api_key env) with
  | some key => .ok { config := config, api_key := key }
  | none => .error (.missingCredential config.api_key_env)

/-- The request payload built by `OpenAIProvider.complete` (openai.py
lines 55–62).  `temperature` is carried opaquely as a JSON value; it is
attached only when explicitly supplied. -/
def OpenAIProvider.payload (p : OpenAIProvider) (prompt : String)
    (model : Option String) (max_tokens : Option Int)
    (temperature : Option Json) : Json :=
  Json.obj
    ([("model", .str (pyOrStr model (pyOrStr p.config.model "gpt-4o-mini"))),
      ("messages", .arr [.obj [("role", .str "user"), ("content", .str prompt)]]),
      ("max_tokens", .num (pyOrInt max_tokens (pyOrInt p.config.max_tokens 1024)))]
     ++ (match temperature with
         | some t => [("temperature", t)]
         | none => []))

/-- `OpenAIProvider.complete` (openai.py lines 30–87), response-mapping part:
`data` is the parsed JSON body of the successful HTTP response.  `text` is
the first choice's message content; `id` and `model` are required fields;
`usage` is always built, with each numeric field defaulting to 0. -/
def OpenAIProvider.complete (p : OpenAIProvider) (prompt : String)
    (model : Option String) (max_tokens : Option Int)
    (temperature : Option Json) (data : Json) :
    Except AgentError CompletionResult := do
  let _payload := p.payload prompt model max_tokens temperature
  let choices ← data.index "choices"
  let choice0 ← choices.first
  let message ← choice0.index "message"
  let text ← (← message.index "content").asStr
  let usage_data ← data.getD "usage" (.obj [])
  let prompt_tokens ← (← usage_data.getD "prompt_tokens" (.num 0)).asInt
  let completion_tokens ← (← usage_data.getD "completion_tokens" (.num 0)).asInt
  let total_tokens ← (← usage_data.getD "total_tokens" (.num 0)).asInt
  let usage : TokenUsage :=
    { prompt_tokens := prompt_tokens,
      completion_tokens := completion_tokens,
      total_tokens := total_tokens }
  let id ← (← data.index "id").asStr
  let model ← (← data.index "model").asStr
  return { id := id, text := text, model := model, usage := some usage }

/-- `HTTPProvider` (`agent/providers/http_adapter.py`): the generic adapter;
`__init__` only stores the config, so construction is total. -/
structure HTTPProvider where
  config : ProviderConfig
deriving Repr, DecidableEq

/-- `HTTPProvider.__init__`: no credential precondition, always succeeds. -/
def HTTPProvider.init (config : ProviderConfig) : HTTPProvider :=
  { config := config }

/-- The request payload built by `HTTPProvider.complete` (http_adapter.py
lines 47–55). -/
def HTTPProvider.payload (p : HTTPProvider) (prompt : String)
    (model : Option String) (max_tokens : Option Int)
    (temperature : Option Json) : Json :=
  Json.obj
    ([("model", .str (pyOrStr model (pyOrStr p.config.model "default"))),
      ("input", .str prompt),
      ("max_tokens", .num (pyOrInt max_tokens (pyOrInt p.config.max_tokens 1024))),
      ("stream", .bool false)]
     ++ (match temperature with
         | some t => [("temperature", t)]
         | none => []))

/-- `HTTPProvider.complete` (http_adapter.py lines 25–82), response-mapping
part.  `text` defaults to `""` when `output` is absent; `usage` is built only
when `token_usage` is truthy, with `total_tokens` the sum of its
`prompt`/`completion` fields; `id` defaults to `"unknown"`; the result's
`model` is `payload["model"]`, computed in `complete` by the same
`model or config.model or "default"` cascade that built the payload.
This definition is the `if usage_data:` block. -/
def HTTPProvider.usageOf (usage_data : Json) :
    Except AgentError (Option TokenUsage) :=
  if usage_data.isTruthy then do
    let prompt_count ← (← usage_data.getD "prompt" (.num 0)).asInt
    let completion_count ← (← usage_data.getD "completion" (.num 0)).asInt
    pure (some
      { prompt_tokens := prompt_count,
        completion_tokens := completion_count,
        total_tokens := prompt_count + completion_count })
  else
    pure none

/-- `HTTPProvider.complete` (http_adapter.py lines 25–82), response-mapping
part, continued: the assembly of the result. -/
def HTTPProvider.complete (p : HTTPProvider) (prompt : String)
    (model : Option String) (max_tokens : Option Int)
    (temperature : Option Json) (data : Json) :
    Except AgentError CompletionResult := do
  let _payload := p.payload prompt model max_tokens temperature
  let text ← (← data.getD "output" (.str "")).asStr
  let usage_data ← data.getD "token_usage" (.obj [])
  let usage ← HTTPProvider.usageOf usage_data
  let id ← (← data.getD "id" (.str "unknown")).asStr
  return { id := id, text := text,
           model := pyOrStr model (pyOrStr p.config.model "default"),
           usage := usage }

/-- Modelled from the spec: the module `agent/providers/anthropic.py` (class
`AnthropicProvider`) is imported by `agent/cli.py` and by the tests but is
missing from the source tree.  Per spec §4.3 the adapter holds the config and
a resolved credential, like the OpenAI adapter. -/
structure AnthropicProvider where
  config : ProviderConfig
  api_key : String
deriving Repr, DecidableEq

/-- Modelled from the spec (§4.3, "Same fail-fast credential precondition as
4.2"): `AnthropicProvider.__init__` resolves the credential and fails with
`MissingCredential` when it does not resolve. -/
def AnthropicProvider.init (env : Env) (config : ProviderConfig) :
    Except AgentError AnthropicProvider :=
  match pyTruthyStr (config.get_api_key env) with
  | some key => .ok { config := config, api_key := key }
  | none => .error (.missingCredential config.api_key_env)

/-- Modelled from the spec (§4.3 response mapping, and the shape asserted by
`test_anthropic_provider_complete`): `text` is the first content block's
`text`; `id` and `model` are echoed, required fields; `usage` is built from
`input_tokens`/`output_tokens` (defaulting a missing field to 0, as the sibling
adapters do) with `total_tokens` derived as their sum.  The request payload is
not modelled: no claim depends on it and the spec leaves its model fallback
unspecified. -/
def AnthropicProvider.complete (p : AnthropicProvider) (prompt : String)
    (model : Option String) (max_tokens : Option Int)
    (temperature : Option Json) (data : Json) :
    Except AgentError CompletionResult := do
  let content ← data.index "content"
  let block0 ← content.first
  let text ← (← block0.index "text").asStr
  let usage_data ← data.getD "usage" (.obj [])
  let input_tokens ← (← usage_data.getD "input_tokens" (.num 0)).asInt
  let output_tokens ← (← usage_data.getD "output_tokens" (.num 0)).asInt
  let usage : TokenUsage :=
    { prompt_tokens := input_tokens,
      completion_tokens := output_tokens,
      total_tokens := input_tokens + output_tokens }
  let id ← (← data.index "id").asStr
  let model ← (← data.index "model").asStr
  return { id := id, text := text, model := model, usage := some usage }

/-- `AgentConfig` (`agent/config.py`): `providers` is a dict with unique
keys, modelled as an association list in insertion order. -/
structure AgentConfig where
  default_provider : String := "openai"
  providers : List (String × ProviderConfig) := []
deriving Repr, DecidableEq

/-- `AgentConfig.get_provider`: look up by name, falling back to
`default_provider` when the name is falsy (`name or self.default_provider`). -/
def AgentConfig.get_provider (cfg : AgentConfig) (name : Option String) :
    Option ProviderConfig :=
  List.lookup (pyOrStr name cfg.default_provider) cfg.providers

/-- Python's `needle in haystack` on strings. -/
def strContains (haystack needle : String) : Bool :=
  decide (needle.data <:+: haystack.data)

/-- Python's `str.lower()` (the URLs matched here are ASCII). -/
def pyLower (s : String) : String :=
  String.mk (s.data.map Char.toLower)

/-- The adapter chosen by the dispatcher. -/
inductive ProviderInstance where
  | openaiP (p : OpenAIProvider)
  | anthropicP (p : AnthropicProvider)
  | httpP (p : HTTPProvider)
deriving Repr, DecidableEq

/-- `get_provider` (cli.py lines 38–67), the dispatcher: look up the
provider's config (`UnknownProvider`, listing the known names, if absent),
then select the adapter by case-insensitive substring match on the base URL:
`openai.com` first, then `anthropic.com`, else the generic HTTP adapter. -/
def get_provider (env : Env) (provider_name : String) (config : AgentConfig) :
    Except AgentError ProviderInstance :=
  match config.get_provider (some provider_name) with
  | none =>
    .error (.unknownProvider provider_name (config.providers.map Prod.fst))
  | some provider_config =>
    let base_url := pyLower provider_config.base_url
    if strContains base_url "openai.com" then
      (OpenAIProvider.init env provider_config).map ProviderInstance.openaiP
    else if strContains base_url "anthropic.com" then
      (AnthropicProvider.init env provider_config).map ProviderInstance.anthropicP
    else
      .ok (.httpP (HTTPProvider.init provider_config))

/-- `Message` (`agent/session.py`). -/
structure Message where
  role : String
  content : String
deriving Repr, DecidableEq

/-- `Session` (`agent/session.py`): the in-memory conversation log. -/
structure Session where
  messages : List Message := []
deriving Repr, DecidableEq

/-- `Session.add_user_message`: append a user-role message. -/
def Session.add_user_message (s : Session) (content : String) : Session :=
  { messages := s.messages ++ [{ role := "user", content := content }] }

/-- `Session.add_assistant_message`: append an assistant-role message. -/
def Session.add_assistant_message (s : Session) (content : String) : Session :=
  { messages := s.messages ++ [{ role := "assistant", content := content }] }

/-- `Session.get_history`: the full history (the Python method returns a
copy; on immutable Lean lists the copy is the list itself). -/
def Session.get_history (s : Session) : List Message :=
  s.messages

/-- `Session.clear`. -/
def Session.clear (_ : Session) : Session :=
  { messages := [] }

/-- `Session.format_for_display`: each message rendered as
`"User: <content>"` or `"Assistant: <content>"`, joined by newlines. -/
def Session.format_for_display (s : Session) : String :=
  String.intercalate "\n" (s.messages.map fun msg =>
    (if msg.role = "user" then "User:" else "Assistant:") ++ " " ++ msg.content)

/-- One call in a sequence of session-append operations. -/
inductive ChatOp where
  | user (content : String)
  | assistant (content : String)
deriving Repr, DecidableEq

/-- The message a `ChatOp` appends. -/
def ChatOp.message : ChatOp → Message
  | .user c => { role := "user", content := c }
  | .assistant c => { role := "assistant", content := c }

/-- Run a sequence of `add_user_message` / `add_assistant_message` calls. -/
def Session.run : Session → List ChatOp → Session
  | s, [] => s
  | s, .user c :: ops => Session.run (s.add_user_message c) ops
  | s, .assistant c :: ops => Session.run (s.add_assistant_message c) ops

/-- JSON/YAML encoding of an `Optional[str]` field (pydantic `model_dump`
emits `None` as null). -/
def optStrJson : Option String → Json
  | some s => .str s
  | none => .null

/-- JSON/YAML encoding of an `Optional[int]` field. -/
def optIntJson : Option Int → Json
  | some n => .num n
  | none => .null

/-- `ProviderConfig` under pydantic `model_dump`: a dict of its fields. -/
def ProviderConfig.model_dump (cfg : ProviderConfig) : Json :=
  .obj [("base_url", .str cfg.base_url),
        ("api_key_env", optStrJson cfg.api_key_env),
        ("model", optStrJson cfg.model),
        ("max_tokens", optIntJson cfg.max_tokens),
        ("timeout", .num cfg.timeout)]

/-- `AgentConfig` under pydantic `model_dump`. -/
def AgentConfig.model_dump (cfg : AgentConfig) : Json :=
  .obj [("default_provider", .str cfg.default_provider),
        ("providers", .obj (cfg.providers.map fun nv => (nv.1, nv.2.model_dump)))]

/-- Decode an optional string field: absent or null means the pydantic
default `None`. -/
def decodeOptStr : Option Json → Except AgentError (Option String)
  | none => .ok none
  | some .null => .ok none
  | some (.str s) => .ok (some s)
  | some _ => .error .typeError

/-- Decode an optional integer field: absent or null means `None`. -/
def decodeOptInt : Option Json → Except AgentError (Option Int)
  | none => .ok none
  | some .null => .ok none
  | some (.num n) => .ok (some n)
  | some _ => .error .typeError

/-- Pydantic validation of a `ProviderConfig` from a decoded YAML mapping
(`ProviderConfig(**fields)`): `base_url` is required, the other fields take
their declared defaults when absent. -/
def ProviderConfig.validate : Json → Except AgentError ProviderConfig
  | .obj kvs => do
    let base_url ←
      match lookupField kvs "base_url" with
      | some v => v.asStr
      | none => .error .typeError
    let api_key_env ← decodeOptStr (lookupField kvs "api_key_env")
    let model ← decodeOptStr (lookupField kvs "model")
    let max_tokens ← decodeOptInt (lookupField kvs "max_tokens")
    let timeout ←
      match lookupField kvs "timeout" with
      | some v => v.asInt
      | none => .ok 60
    return { base_url := base_url, api_key_env := api_key_env,
             model := model, max_tokens := max_tokens, timeout := timeout }
  | _ => .error .typeError

/-- Validate the values of the `providers` mapping one by one. -/
def validateProviders : List (String × Json) →
    Except AgentError (List (String × ProviderConfig))
  | [] => .ok []
  | (name, v) :: rest => do
    let pc ← ProviderConfig.validate v
    let tail ← validateProviders rest
    return (name, pc) :: tail

/-- Pydantic validation of an `AgentConfig` from a decoded YAML mapping
(`AgentConfig(**data)`): both fields take their declared defaults when
absent. -/
def AgentConfig.validate : Json → Except AgentError AgentConfig
  | .obj kvs => do
    let default_provider ←
      match lookupField kvs "default_provider" with
      | some v => v.asStr
      | none => .ok "openai"
    let providers ←
      match lookupField kvs "providers" with
      | some (.obj pvs) => validateProviders pvs
      | some _ => .error .typeError
      | none => .ok []
    return { default_provider := default_provider, providers := providers }
  | _ => .error .typeError

/-- The file system as seen by config persistence: a map from paths to the
YAML document stored there, in the YAML data model (`yaml.safe_dump` /
`yaml.safe_load` round-trip these structures as data, so the serialized text
itself is not modelled). -/
def FileStore : Type := String → Option Json

/-- `AgentConfig.save` (config.py lines 53–61): write `model_dump` to the
given path.  The default-path branch (`get_config_path`, a per-user home
directory lookup) is environment glue and is not modelled; callers here pass
the path explicitly. -/
def AgentConfig.save (cfg : AgentConfig) (fs : FileStore) (path : String) :
    FileStore :=
  fun q => if q = path then some cfg.model_dump else fs q

/-- `AgentConfig.load` (config.py lines 39–51): return the class-default
config when the file does not exist; otherwise parse the YAML document
(`yaml.safe_load(f) or {}`: an empty document loads as `None` and is
replaced by the empty mapping) and validate it (`cls(**data)`). -/
def AgentConfig.load (fs : FileStore) (path : String) :
    Except AgentError AgentConfig :=
  match fs path with
  | none => .ok {}
  | some data =>
    AgentConfig.validate (if data.isTruthy then data else .obj [])

/-- `create_default_config` (config.py lines 69–92). -/
def create_default_config : AgentConfig :=
  { default_provider := "openai",
    providers :=
      [("openai",
        { base_url := "https://api.openai.com",
          api_key_env := some "OPENAI_API_KEY",
          model := some "gpt-4", max_tokens := some 1024 }),
       ("anthropic",
        { base_url := "https://api.anthropic.com",
          api_key_env := some "ANTHROPIC_API_KEY",
          model := some "claude-3-5-sonnet-20241022", max_tokens := some 1024 }),
       ("local_mcp",
        { base_url := "http://localhost:8080",
          model := some "local-model", max_tokens := some 1024 })] }

/-- The empty environment: no variable resolves. -/
def envEmpty : Env := fun _ => none

/-- A config whose credential variable is unset in `envEmpty`. -/
def pcNoKey : ProviderConfig :=
  { base_url := "https://api.openai.com", api_key_env := some "MISSING_KEY" }

/-- An environment holding one API key, for exercising the dispatcher. -/
def envTest : Env := fun k => if k = "API_KEY" then some "sk-test" else none

/-- A config whose base URL contains both vendor domains (mixed case). -/
def pcBothDomains : ProviderConfig :=
  { base_url := "https://API.OpenAI.com/proxy.anthropic.com",
    api_key_env := some "API_KEY" }

/-- A one-provider configuration for the dispatcher witness. -/
def cfgBothDomains : AgentConfig :=
  { default_provider := "dual", providers := [("dual", pcBothDomains)] }

/-- The OpenAI provider config of `test_openai_provider_complete`. -/
def pcOpenAI : ProviderConfig :=
  { base_url := "https://api.openai.com", api_key_env := some "OPENAI_API_KEY",
    model := some "gpt-4o-mini" }

/-- The constructed OpenAI adapter with the test credential. -/
def pOpenAI : OpenAIProvider := { config := pcOpenAI, api_key := "test-key" }

/-- The message object of the C1 scenario response. -/
def oaiMessage : Json := .obj [("content", .str "Hello, world!")]

/-- The single choice of the C1 scenario response. -/
def oaiChoice : Json := .obj [("message", oaiMessage)]

/-- The usage object of the C1 scenario response. -/
def oaiUsage : Json :=
  .obj [("prompt_tokens", .num 10), ("completion_tokens", .num 5),
        ("total_tokens", .num 15)]

/-- The C1 scenario response body. -/
def oaiResponse : Json :=
  .obj [("id", .str "test-123"), ("model", .str "gpt-4o-mini"),
        ("choices", .arr [oaiChoice]), ("usage", oaiUsage)]

/-- The C1 scenario response with the `usage` object omitted entirely. -/
def oaiResponseNoUsage : Json :=
  .obj [("id", .str "test-123"), ("model", .str "gpt-4o-mini"),
        ("choices", .arr [oaiChoice])]

/-- The local MCP provider config of `test_http_provider_complete`. -/
def pcLocal : ProviderConfig :=
  { base_url := "http://localhost:8080", model := some "local-model" }

/-- The constructed generic HTTP adapter. -/
def pLocal : HTTPProvider := { config := pcLocal }

/-- A generic-adapter response carrying no `token_usage`. -/
def mcpResponseNoUsage : Json :=
  .obj [("id", .str "local-789"), ("output", .str "Response from local MCP")]

/-- A generic-adapter response missing only `output` (the `id` is present). -/
def mcpResponseIdOnly : Json :=
  .obj [("id", .str "local-789")]

/-- A generic-adapter response missing only `id` (the `output` is present). -/
def mcpResponseOutputOnly : Json :=
  .obj [("output", .str "Response from local MCP")]

/-- The generic-adapter response of `test_http_provider_complete`. -/
def mcpResponse : Json :=
  .obj [("id", .str "local-789"), ("output", .str "Response from local MCP"),
        ("token_usage", .obj [("prompt", .num 12), ("completion", .num 8)])]

/-- The Anthropic provider config of `test_anthropic_provider_complete`. -/
def pcAnthropic : ProviderConfig :=
  { base_url := "https://api.anthropic.com",
    api_key_env := some "ANTHROPIC_API_KEY",
    model := some "claude-3-haiku-20240307" }

/-- The constructed Anthropic adapter with the test credential. -/
def pAnthropic : AnthropicProvider := { config := pcAnthropic, api_key := "test-key" }

/-- The first content block of the Anthropic test response. -/
def anthBlock : Json := .obj [("text", .str "Greetings!")]

/-- An Anthropic-style response whose usage omits `output_tokens`, to
exercise the missing-component-counts-as-0 part of the claim. -/
def anthResponse : Json :=
  .obj [("id", .str "test-456"), ("model", .str "claude-3-haiku-20240307"),
        ("content", .arr [anthBlock]),
        ("usage", .obj [("input_tokens", .num 8)])]

/-- An OpenAI adapter whose config carries explicit defaults. -/
def pOpenAIDefaults : OpenAIProvider :=
  { config := { base_url := "https://api.openai.com",
                model := some "cfg-model", max_tokens := some 500 },
    api_key := "k" }

/-- A generic adapter whose config carries no defaults. -/
def pHttpBare : HTTPProvider := { config := { base_url := "http://localhost:8080" } }

theorem Session.run_messages (ops : List ChatOp) (s : Session) :
    (Session.run s ops).messages = s.messages ++ ops.map ChatOp.message := by
  induction ops generalizing s with
  | nil => simp [Session.run]
  | cons op rest ih =>
    cases op with
    | user c =>
      simp [Session.run, Session.add_user_message, ih, ChatOp.message]
    | assistant c =>
      simp [Session.run, Session.add_assistant_message, ih, ChatOp.message]

/-- The display line a single appended message renders to. -/
theorem chatOp_render (op : ChatOp) :
    (if (ChatOp.message op).role = "user" then "User:" else "Assistant:") ++ " "
        ++ (ChatOp.message op).content
      = (match op with
         | .user c => "User: " ++ c
         | .assistant c => "Assistant: " ++ c) := by
  cases op <;> simp [ChatOp.message]

/-- C7: every sequence of `add_user_message` / `add_assistant_message` calls
on a fresh `Session` leaves `get_history` with exactly the appended
messages, in call order and with roles matching the method used, and
`format_for_display` renders them as `User: <content>` /
`Assistant: <content>` lines joined by newlines; in particular the
`Hello` / `Hi there!` scenario produces exactly those two messages and the
display string `"User: Hello\nAssistant: Hi there!"`. -/
theorem session_history_and_display (ops : List ChatOp) :
    (Session.run {} ops).get_history = ops.map ChatOp.message
    ∧ (Session.run {} ops).format_for_display
        = String.intercalate "\n" (ops.map fun op =>
            match op with
            | .user c => "User: " ++ c
            | .assistant c => "Assistant: " ++ c)
    ∧ (Session.run {} [ChatOp.user "Hello", ChatOp.assistant "Hi there!"]).get_history
        = [{ role := "user", content := "Hello" },
           { role := "assistant", content := "Hi there!" }]
    ∧ (Session.run {} [ChatOp.user "Hello", ChatOp.assistant "Hi there!"]).format_for_display
        = "User: Hello\nAssistant: Hi there!" := by
  refine ⟨?_, ?_, rfl, rfl⟩
  · simp [Session.get_history, Session.run_messages]
  · show String.intercalate "\n"
        (((Session.run {} ops).messages).map fun msg =>
          (if msg.role = "user" then "User:" else "Assistant:") ++ " " ++ msg.content) = _
    rw [Session.run_messages]
    simp only [List.nil_append, List.map_map]
    refine congrArg _ (List.map_congr_left fun op _ => ?_)
    exact chatOp_render op

/-- C9: loading from a path with no configuration file succeeds and returns
the built-in default configuration (the class field defaults:
`default_provider = "openai"`, no providers). -/
theorem load_missing_file_is_default (fs : FileStore) (path : String)
    (h : fs path = none) :
    AgentConfig.load fs path = .ok { default_provider := "openai", providers := [] } := by
  simp [AgentConfig.load, h]

theorem load_missing_file_is_default_witness :
    ((fun _ => none) : FileStore) "/tmp/nonexistent.yaml" = none
    ∧ AgentConfig.load (fun _ => none) "/tmp/nonexistent.yaml"
        = .ok { default_provider := "openai", providers := [] } :=
  ⟨rfl, load_missing_file_is_default (fun _ => none) "/tmp/nonexistent.yaml" rfl⟩

/-- C4: for the OpenAI-style and Anthropic-style adapters, construction with
a credential that does not resolve to a (truthy) secret fails with
`MissingCredential` at construction time — no `complete` call or response is
involved — while the generic adapter's construction is total and always
yields the adapter. -/
theorem construction_credential_precondition (env : Env) (cfg : ProviderConfig)
    (h : pyTruthyStr (cfg.get_api_key env) = none) :
    OpenAIProvider.init env cfg = .error (.missingCredential cfg.api_key_env)
    ∧ AnthropicProvider.init env cfg = .error (.missingCredential cfg.api_key_env)
    ∧ HTTPProvider.init cfg = { config := cfg } := by
  refine ⟨?_, ?_, rfl⟩ <;> simp [OpenAIProvider.init, AnthropicProvider.init, h]

theorem construction_credential_precondition_witness :
    pyTruthyStr (pcNoKey.get_api_key envEmpty) = none
    ∧ OpenAIProvider.init envEmpty pcNoKey
        = .error (.missingCredential (some "MISSING_KEY"))
    ∧ AnthropicProvider.init envEmpty pcNoKey
        = .error (.missingCredential (some "MISSING_KEY"))
    ∧ HTTPProvider.init pcNoKey = { config := pcNoKey } :=
  ⟨rfl,
   (construction_credential_precondition envEmpty pcNoKey rfl).1,
   (construction_credential_precondition envEmpty pcNoKey rfl).2.1,
   (construction_credential_precondition envEmpty pcNoKey rfl).2.2⟩

/-- C3: the dispatcher selects the adapter by case-insensitive substring
match on the configured base URL, in priority order: an `openai.com` match
selects the OpenAI adapter (even if `anthropic.com` also occurs), otherwise
an `anthropic.com` match selects the Anthropic adapter, otherwise the
generic HTTP adapter is selected. -/
theorem dispatcher_selects_by_url (env : Env) (name : String)
    (config : AgentConfig) (pc : ProviderConfig)
    (h : config.get_provider (some name) = some pc) :
    (strContains (pyLower pc.base_url) "openai.com" = true →
      get_provider env name config
        = (OpenAIProvider.init env pc).map ProviderInstance.openaiP)
    ∧ (strContains (pyLower pc.base_url) "openai.com" = false →
       strContains (pyLower pc.base_url) "anthropic.com" = true →
      get_provider env name config
        = (AnthropicProvider.init env pc).map ProviderInstance.anthropicP)
    ∧ (strContains (pyLower pc.base_url) "openai.com" = false →
       strContains (pyLower pc.base_url) "anthropic.com" = false →
      get_provider env name config = .ok (.httpP (HTTPProvider.init pc))) := by
  refine ⟨?_, ?_, ?_⟩ <;> intros <;> simp [get_provider, h, *]

theorem dispatcher_selects_by_url_witness :
    cfgBothDomains.get_provider (some "dual") = some pcBothDomains
    ∧ strContains (pyLower pcBothDomains.base_url) "openai.com" = true
    ∧ strContains (pyLower pcBothDomains.base_url) "anthropic.com" = true
    ∧ get_provider envTest "dual" cfgBothDomains
        = .ok (.openaiP { config := pcBothDomains, api_key := "sk-test" }) :=
  ⟨rfl, rfl, rfl,
   (dispatcher_selects_by_url envTest "dual" cfgBothDomains pcBothDomains rfl).1 rfl⟩


theorem exBind_ok {a b : Type} (x : a) (f : a → Except AgentError b) :
    (Except.ok x : Except AgentError a) >>= f = f x := rfl

theorem exMap_ok {a b : Type} (g : a → b) (x : a) :
    g <$> (Except.ok x : Except AgentError a) = .ok (g x) := rfl

theorem exPure {a : Type} (x : a) : (pure x : Except AgentError a) = .ok x := rfl

/-- C1: for every well-formed OpenAI-style response body, `complete` returns
the first choice's message content as `text`, echoes `id` and `model`
verbatim, and builds `usage` from the response's
`prompt_tokens`/`completion_tokens`/`total_tokens`, any missing numeric
field defaulting to 0 (the defaulted reads are the `getD … (.num 0)`
hypotheses). -/
theorem openai_complete_maps_response
    (p : OpenAIProvider) (prompt : String) (model : Option String)
    (max_tokens : Option Int) (temperature : Option Json)
    (data choices choice0 message u : Json) (i m t : String) (pt ct tt : Int)
    (h1 : data.index "choices" = .ok choices)
    (h2 : choices.first = .ok choice0)
    (h3 : choice0.index "message" = .ok message)
    (h4 : message.index "content" = .ok (.str t))
    (h5 : data.getD "usage" (.obj []) = .ok u)
    (h6 : u.getD "prompt_tokens" (.num 0) = .ok (.num pt))
    (h7 : u.getD "completion_tokens" (.num 0) = .ok (.num ct))
    (h8 : u.getD "total_tokens" (.num 0) = .ok (.num tt))
    (h9 : data.index "id" = .ok (.str i))
    (h10 : data.index "model" = .ok (.str m)) :
    p.complete prompt model max_tokens temperature data
      = .ok { id := i, text := t, model := m,
              usage := some { prompt_tokens := pt, completion_tokens := ct,
                              total_tokens := tt } } := by
  simp [OpenAIProvider.complete, h1, h2, h3, h4, h5, h6, h7, h8, h9, h10,
        Json.asStr, Json.asInt, exBind_ok, exMap_ok, exPure]

theorem openai_complete_maps_response_witness :
    oaiResponse.index "id" = .ok (.str "test-123")
    ∧ pOpenAI.complete "Test prompt" none none none oaiResponse
        = .ok { id := "test-123", text := "Hello, world!", model := "gpt-4o-mini",
                usage := some { prompt_tokens := 10, completion_tokens := 5,
                                total_tokens := 15 } } :=
  ⟨rfl,
   openai_complete_maps_response pOpenAI "Test prompt" none none none
     oaiResponse (.arr [oaiChoice]) oaiChoice oaiMessage oaiUsage
     "test-123" "gpt-4o-mini" "Hello, world!" 10 5 15
     rfl rfl rfl rfl rfl rfl rfl rfl rfl rfl⟩

/-- C2 counterexample: the OpenAI adapter, given a response that omits usage
data entirely, returns a result whose `usage` is PRESENT with zeroed fields,
not absent — refuting the claim's "for every adapter" quantification. -/
theorem openai_missing_usage_not_absent :
    pOpenAI.complete "Test prompt" none none none oaiResponseNoUsage
      = .ok { id := "test-123", text := "Hello, world!", model := "gpt-4o-mini",
              usage := some { prompt_tokens := 0, completion_tokens := 0,
                              total_tokens := 0 } }
    ∧ (pOpenAI.complete "Test prompt" none none none oaiResponseNoUsage).map
        CompletionResult.usage ≠ .ok none := by
  refine ⟨rfl, ?_⟩
  intro h
  rw [show pOpenAI.complete "Test prompt" none none none oaiResponseNoUsage
        = .ok { id := "test-123", text := "Hello, world!", model := "gpt-4o-mini",
                usage := some { prompt_tokens := 0, completion_tokens := 0,
                                total_tokens := 0 } } from rfl] at h
  simp [Except.map] at h

/-- C2 as amended: for the generic-HTTP adapter, a vendor response that
omits `token_usage` yields a result with `usage` absent, not zeroed (the
OpenAI adapter instead always attaches a usage, zeroing missing fields). -/
theorem http_missing_usage_is_absent
    (p : HTTPProvider) (prompt : String) (model : Option String)
    (max_tokens : Option Int) (temperature : Option Json)
    (kvs : List (String × Json)) (t i : String)
    (hu : lookupField kvs "token_usage" = none)
    (ht : (lookupField kvs "output").getD (.str "") = .str t)
    (hi : (lookupField kvs "id").getD (.str "unknown") = .str i) :
    p.complete prompt model max_tokens temperature (.obj kvs)
      = .ok { id := i, text := t,
              model := pyOrStr model (pyOrStr p.config.model "default"),
              usage := none } := by
  simp [HTTPProvider.complete, Json.getD, hu, ht, hi, HTTPProvider.usageOf,
        Json.isTruthy, Json.asStr, exBind_ok, exMap_ok, exPure]

theorem http_missing_usage_is_absent_witness :
    lookupField [("id", Json.str "local-789"),
                 ("output", Json.str "Response from local MCP")] "token_usage" = none
    ∧ pLocal.complete "Test prompt" none none none mcpResponseNoUsage
        = .ok { id := "local-789", text := "Response from local MCP",
                model := "local-model", usage := none } :=
  ⟨rfl,
   http_missing_usage_is_absent pLocal "Test prompt" none none none
     [("id", Json.str "local-789"), ("output", Json.str "Response from local MCP")]
     "Response from local MCP" "local-789" rfl rfl rfl⟩

/-- C5: the generic-HTTP adapter does not fail on a missing `output` or `id`
field, and the two tolerances are independent conditionals over every
response body: for any body lacking `output` (its `id` present as a string
or absent) the result's `text` is `""`, and for any body lacking `id` (its
`output` present as a string or absent) the result's `id` is the literal
`"unknown"`. -/
theorem http_tolerates_missing_output_and_id :
    (∀ (p : HTTPProvider) (prompt : String) (model : Option String)
       (max_tokens : Option Int) (temperature : Option Json)
       (kvs : List (String × Json)) (i : String) (usage : Option TokenUsage),
       lookupField kvs "output" = none →
       (lookupField kvs "id").getD (.str "unknown") = .str i →
       HTTPProvider.usageOf ((lookupField kvs "token_usage").getD (.obj []))
           = .ok usage →
       p.complete prompt model max_tokens temperature (.obj kvs)
         = .ok { id := i, text := "",
                 model := pyOrStr model (pyOrStr p.config.model "default"),
                 usage := usage })
    ∧ (∀ (p : HTTPProvider) (prompt : String) (model : Option String)
       (max_tokens : Option Int) (temperature : Option Json)
       (kvs : List (String × Json)) (t : String) (usage : Option TokenUsage),
       lookupField kvs "id" = none →
       (lookupField kvs "output").getD (.str "") = .str t →
       HTTPProvider.usageOf ((lookupField kvs "token_usage").getD (.obj []))
           = .ok usage →
       p.complete prompt model max_tokens temperature (.obj kvs)
         = .ok { id := "unknown", text := t,
                 model := pyOrStr model (pyOrStr p.config.model "default"),
                 usage := usage }) := by
  constructor
  · intro p prompt model max_tokens temperature kvs i usage ho hi hu
    simp [HTTPProvider.complete, Json.getD, ho, hi, hu, Json.asStr,
          exBind_ok, exMap_ok, exPure]
  · intro p prompt model max_tokens temperature kvs t usage hi ho hu
    simp [HTTPProvider.complete, Json.getD, ho, hi, hu, Json.asStr,
          exBind_ok, exMap_ok, exPure]

theorem http_tolerates_missing_output_and_id_witness :
    lookupField [("id", Json.str "local-789")] "output" = none
    ∧ pLocal.complete "Test prompt" none none none mcpResponseIdOnly
        = .ok { id := "local-789", text := "", model := "local-model",
                usage := none }
    ∧ lookupField [("output", Json.str "Response from local MCP")] "id" = none
    ∧ pLocal.complete "Test prompt" none none none mcpResponseOutputOnly
        = .ok { id := "unknown", text := "Response from local MCP",
                model := "local-model", usage := none } :=
  ⟨rfl,
   http_tolerates_missing_output_and_id.1 pLocal "Test prompt" none none none
     [("id", Json.str "local-789")] "local-789" none rfl rfl rfl,
   rfl,
   http_tolerates_missing_output_and_id.2 pLocal "Test prompt" none none none
     [("output", Json.str "Response from local MCP")]
     "Response from local MCP" none rfl rfl rfl⟩

/-- C6: whenever the Anthropic-style or generic-HTTP adapter's result carries
a usage, its `total_tokens` is the sum of the two component counts read from
the raw response (`prompt`/`completion` for the generic adapter,
`input_tokens`/`output_tokens` for Anthropic), a missing component reading
as 0 via the defaulted `getD` hypotheses. -/
theorem usage_total_is_component_sum :
    (∀ (p : HTTPProvider) (prompt : String) (model : Option String)
       (max_tokens : Option Int) (temperature : Option Json)
       (kvs ukvs : List (String × Json)) (t i : String) (a b : Int),
       (lookupField kvs "token_usage").getD (.obj []) = .obj ukvs →
       ukvs ≠ [] →
       (lookupField ukvs "prompt").getD (.num 0) = .num a →
       (lookupField ukvs "completion").getD (.num 0) = .num b →
       (lookupField kvs "output").getD (.str "") = .str t →
       (lookupField kvs "id").getD (.str "unknown") = .str i →
       p.complete prompt model max_tokens temperature (.obj kvs)
         = .ok { id := i, text := t,
                 model := pyOrStr model (pyOrStr p.config.model "default"),
                 usage := some { prompt_tokens := a, completion_tokens := b,
                                 total_tokens := a + b } })
    ∧ (∀ (p : AnthropicProvider) (prompt : String) (model : Option String)
       (max_tokens : Option Int) (temperature : Option Json)
       (data content block0 u : Json) (t i m : String) (a b : Int),
       data.index "content" = .ok content →
       content.first = .ok block0 →
       block0.index "text" = .ok (.str t) →
       data.getD "usage" (.obj []) = .ok u →
       u.getD "input_tokens" (.num 0) = .ok (.num a) →
       u.getD "output_tokens" (.num 0) = .ok (.num b) →
       data.index "id" = .ok (.str i) →
       data.index "model" = .ok (.str m) →
       p.complete prompt model max_tokens temperature data
         = .ok { id := i, text := t, model := m,
                 usage := some { prompt_tokens := a, completion_tokens := b,
                                 total_tokens := a + b } }) := by
  constructor
  · intro p prompt model max_tokens temperature kvs ukvs t i a b hu hne ha hb ht hi
    have htr : (Json.obj ukvs).isTruthy = true := by
      cases ukvs with
      | nil => exact absurd rfl hne
      | cons x xs => rfl
    simp [HTTPProvider.complete, HTTPProvider.usageOf, Json.getD, hu, ha, hb,
          ht, hi, htr, Json.asStr, Json.asInt, exBind_ok, exMap_ok, exPure]
  · intro p prompt model max_tokens temperature data content block0 u t i m a b
      h1 h2 h3 h4 h5 h6 h7 h8
    simp [AnthropicProvider.complete, h1, h2, h3, h4, h5, h6, h7, h8,
          Json.asStr, Json.asInt, exBind_ok, exMap_ok, exPure]

theorem usage_total_is_component_sum_witness :
    pLocal.complete "Test prompt" none none none mcpResponse
      = .ok { id := "local-789", text := "Response from local MCP",
              model := "local-model",
              usage := some { prompt_tokens := 12, completion_tokens := 8,
                              total_tokens := 20 } }
    ∧ pAnthropic.complete "Test prompt" none none none anthResponse
      = .ok { id := "test-456", text := "Greetings!",
              model := "claude-3-haiku-20240307",
              usage := some { prompt_tokens := 8, completion_tokens := 0,
                              total_tokens := 8 } } :=
  ⟨usage_total_is_component_sum.1 pLocal "Test prompt" none none none
     [("id", Json.str "local-789"),
      ("output", Json.str "Response from local MCP"),
      ("token_usage", Json.obj [("prompt", Json.num 12), ("completion", Json.num 8)])]
     [("prompt", Json.num 12), ("completion", Json.num 8)]
     "Response from local MCP" "local-789" 12 8
     rfl (List.cons_ne_nil _ _) rfl rfl rfl rfl,
   usage_total_is_component_sum.2 pAnthropic "Test prompt" none none none
     anthResponse (.arr [anthBlock]) anthBlock
     (.obj [("input_tokens", Json.num 8)])
     "Greetings!" "test-456" "claude-3-haiku-20240307" 8 0
     rfl rfl rfl rfl rfl rfl rfl rfl⟩

/-- C10: on the OpenAI-style and generic-HTTP adapters the
model/max_tokens cascade takes the first TRUTHY layer: an explicit
`max_tokens` of 0 or an explicit empty-string model is ignored in favor of
the per-provider config default, else the hardcoded fallback (1024;
`"gpt-4o-mini"` for OpenAI, `"default"` for the generic adapter). -/
theorem defaulting_cascade_is_truthiness_based
    (po : OpenAIProvider) (ph : HTTPProvider) (prompt : String)
    (mo : Option String) (mt : Option Int) (n : Int) (m : String) :
    (po.config.max_tokens = some n → n ≠ 0 →
      (po.payload prompt mo (some 0) none).index "max_tokens" = .ok (.num n))
    ∧ (po.config.max_tokens = none →
      (po.payload prompt mo (some 0) none).index "max_tokens" = .ok (.num 1024))
    ∧ (po.config.model = some m → m ≠ "" →
      (po.payload prompt (some "") mt none).index "model" = .ok (.str m))
    ∧ (po.config.model = none →
      (po.payload prompt (some "") mt none).index "model" = .ok (.str "gpt-4o-mini"))
    ∧ (ph.config.max_tokens = some n → n ≠ 0 →
      (ph.payload prompt mo (some 0) none).index "max_tokens" = .ok (.num n))
    ∧ (ph.config.max_tokens = none →
      (ph.payload prompt mo (some 0) none).index "max_tokens" = .ok (.num 1024))
    ∧ (ph.config.model = some m → m ≠ "" →
      (ph.payload prompt (some "") mt none).index "model" = .ok (.str m))
    ∧ (ph.config.model = none →
      (ph.payload prompt (some "") mt none).index "model" = .ok (.str "default")) := by
  refine ⟨?_, ?_, ?_, ?_, ?_, ?_, ?_, ?_⟩ <;> intros <;>
    simp [OpenAIProvider.payload, HTTPProvider.payload, Json.index,
          lookupField, pyOrInt, pyOrStr, *]

theorem defaulting_cascade_is_truthiness_based_witness :
    pOpenAIDefaults.config.max_tokens = some 500
    ∧ (pOpenAIDefaults.payload "hi" none (some 0) none).index "max_tokens"
        = .ok (.num 500)
    ∧ (pOpenAIDefaults.payload "hi" (some "") none none).index "model"
        = .ok (.str "cfg-model")
    ∧ (pHttpBare.payload "hi" none (some 0) none).index "max_tokens"
        = .ok (.num 1024)
    ∧ (pHttpBare.payload "hi" (some "") none none).index "model"
        = .ok (.str "default") :=
  ⟨rfl,
   (defaulting_cascade_is_truthiness_based pOpenAIDefaults pHttpBare "hi"
      none none 500 "cfg-model").1 rfl (by decide),
   (defaulting_cascade_is_truthiness_based pOpenAIDefaults pHttpBare "hi"
      none none 500 "cfg-model").2.2.1 rfl (by decide),
   (defaulting_cascade_is_truthiness_based pOpenAIDefaults pHttpBare "hi"
      none none 500 "cfg-model").2.2.2.2.2.1 rfl,
   (defaulting_cascade_is_truthiness_based pOpenAIDefaults pHttpBare "hi"
      none none 500 "cfg-model").2.2.2.2.2.2.2 rfl⟩

theorem decodeOptStr_dump (o : Option String) :
    decodeOptStr (some (optStrJson o)) = .ok o := by
  cases o <;> rfl

theorem decodeOptInt_dump (o : Option Int) :
    decodeOptInt (some (optIntJson o)) = .ok o := by
  cases o <;> rfl

theorem providerConfig_validate_model_dump (pc : ProviderConfig) :
    ProviderConfig.validate pc.model_dump = .ok pc := by
  obtain ⟨b, a, m, mt, t⟩ := pc
  simp [ProviderConfig.model_dump, ProviderConfig.validate, lookupField,
        Json.asStr, Json.asInt, decodeOptStr_dump, decodeOptInt_dump,
        exBind_ok, exMap_ok, exPure]

theorem validateProviders_dump (l : List (String × ProviderConfig)) :
    validateProviders (l.map fun nv => (nv.1, nv.2.model_dump)) = .ok l := by
  induction l with
  | nil => rfl
  | cons hd tl ih =>
    obtain ⟨name, pc⟩ := hd
    simp [validateProviders, providerConfig_validate_model_dump, ih,
          exBind_ok, exMap_ok, exPure]

theorem agentConfig_validate_model_dump (cfg : AgentConfig) :
    AgentConfig.validate cfg.model_dump = .ok cfg := by
  obtain ⟨d, ps⟩ := cfg
  simp [AgentConfig.model_dump, AgentConfig.validate, lookupField,
        Json.asStr, validateProviders_dump, exBind_ok, exMap_ok, exPure]

theorem model_dump_isTruthy (cfg : AgentConfig) :
    cfg.model_dump.isTruthy = true := rfl

theorem load_after_save (cfg : AgentConfig) (fs : FileStore) (path : String) :
    AgentConfig.load (cfg.save fs path) path = .ok cfg := by
  simp [AgentConfig.load, AgentConfig.save, model_dump_isTruthy,
        agentConfig_validate_model_dump]

/-- C8: saving an `AgentConfig` to a path and loading from that path yields
a configuration with identical `default_provider` and identical provider
name set; in particular the default configuration's keys
`openai`/`anthropic`/`local_mcp` survive the round trip. -/
theorem config_save_load_roundtrip (cfg : AgentConfig) (fs : FileStore)
    (path : String) :
    (AgentConfig.load (cfg.save fs path) path).map AgentConfig.default_provider
      = .ok cfg.default_provider
    ∧ (AgentConfig.load (cfg.save fs path) path).map
        (fun c => c.providers.map Prod.fst)
      = .ok (cfg.providers.map Prod.fst)
    ∧ (AgentConfig.load (create_default_config.save fs path) path).map
        (fun c => c.providers.map Prod.fst)
      = .ok ["openai", "anthropic", "local_mcp"] := by
  refine ⟨?_, ?_, ?_⟩
  · rw [load_after_save]; rfl
  · rw [load_after_save]; rfl
  · rw [load_after_save]; rfl
